import Mathlib

/-!
# goproxy: certs.go

A verification development for `certs.go` of goproxy: the start-up check of
the built-in certificate authority (`init`) and the two TLS configurations
(`tlsClientSkipVerify`, `defaultTLSConfig`).

`uint16` values are natural numbers below `2^16`; byte slices are lists of
natural numbers; a Go `error` is represented by the text its `Error()` method
returns, which is all `certs.go` reads from it.
-/

namespace tls

/-! ## Constants of `crypto/tls` named by `certs.go`

`certs.go` imports `crypto/tls` and refers to its constants by name. The
numeric values below are those of the Go standard library (the IANA
registry values of the cipher suites and the protocol version numbers). -/

def VersionSSL30 : Nat := 0x0300
def VersionTLS10 : Nat := 0x0301
def VersionTLS11 : Nat := 0x0302
def VersionTLS12 : Nat := 0x0303

def TLS_RSA_WITH_RC4_128_SHA : Nat := 0x0005
def TLS_RSA_WITH_3DES_EDE_CBC_SHA : Nat := 0x000a
def TLS_RSA_WITH_AES_128_CBC_SHA : Nat := 0x002f
def TLS_RSA_WITH_AES_256_CBC_SHA : Nat := 0x0035
def TLS_RSA_WITH_AES_128_CBC_SHA256 : Nat := 0x003c
def TLS_RSA_WITH_AES_128_GCM_SHA256 : Nat := 0x009c
def TLS_RSA_WITH_AES_256_GCM_SHA384 : Nat := 0x009d
def TLS_ECDHE_ECDSA_WITH_RC4_128_SHA : Nat := 0xc007
def TLS_ECDHE_ECDSA_WITH_AES_128_CBC_SHA : Nat := 0xc009
def TLS_ECDHE_ECDSA_WITH_AES_256_CBC_SHA : Nat := 0xc00a
def TLS_ECDHE_RSA_WITH_RC4_128_SHA : Nat := 0xc011
def TLS_ECDHE_RSA_WITH_3DES_EDE_CBC_SHA : Nat := 0xc012
def TLS_ECDHE_RSA_WITH_AES_128_CBC_SHA : Nat := 0xc013
def TLS_ECDHE_RSA_WITH_AES_256_CBC_SHA : Nat := 0xc014
def TLS_ECDHE_ECDSA_WITH_AES_128_CBC_SHA256 : Nat := 0xc023
def TLS_ECDHE_RSA_WITH_AES_128_CBC_SHA256 : Nat := 0xc027
def TLS_ECDHE_RSA_WITH_AES_128_GCM_SHA256 : Nat := 0xc02f
def TLS_ECDHE_ECDSA_WITH_AES_128_GCM_SHA256 : Nat := 0xc02b
def TLS_ECDHE_RSA_WITH_AES_256_GCM_SHA384 : Nat := 0xc030
def TLS_ECDHE_ECDSA_WITH_AES_256_GCM_SHA384 : Nat := 0xc02c
def TLS_ECDHE_RSA_WITH_CHACHA20_POLY1305 : Nat := 0xcca8
def TLS_ECDHE_ECDSA_WITH_CHACHA20_POLY1305 : Nat := 0xcca9

/-- The fields of `tls.Config` that `certs.go` sets. -/
structure Config where
  InsecureSkipVerify : Bool
  PreferServerCipherSuites : Bool
  CipherSuites : List Nat
  MinVersion : Nat
  deriving DecidableEq, Repr

set_option linter.dupNamespace false

/-- The value `tls.X509KeyPair` returns and `init` completes: the chain of
DER-encoded certificates, the private key, and the parsed leaf (a pointer in
Go: `none` is `nil`). `Key` is the type of private keys and `X509` the type
of parsed certificates (`x509.Certificate`). -/
structure Certificate (Key X509 : Type) where
  Certificate : List (List Nat)
  PrivateKey : Key
  OCSPStaple : List Nat
  SignedCertificateTimestamps : List (List Nat)
  Leaf : Option X509
  deriving DecidableEq, Repr

/-! ## What the names of the cipher suites say

Every constant `TLS_<key exchange>_WITH_<cipher>_<hash>` names its key
exchange, its bulk cipher and its hash. -/

/-- Key exchange and authentication: the part of the name before `_WITH_`. -/
inductive KeyAgreement where
  | RSA
  | ECDHE_RSA
  | ECDHE_ECDSA
  deriving DecidableEq, Repr

/-- Bulk cipher: the part of the name after `_WITH_`, without the hash. -/
inductive BulkCipher where
  | RC4_128
  | TripleDES_EDE_CBC
  | AES_128_CBC
  | AES_256_CBC
  | AES_128_GCM
  | AES_256_GCM
  | CHACHA20_POLY1305
  deriving DecidableEq, Repr

/-- The trailing hash of the name; the ChaCha20-Poly1305 names carry none. -/
inductive Hash where
  | SHA
  | SHA256
  | SHA384
  | none
  deriving DecidableEq, Repr

/-- One row of the suite table: the identifier, the three parts of its name,
and whether `crypto/tls` flags the suite `suiteTLS12` (it can be negotiated
in TLS 1.2 only; an unflagged suite can be negotiated from SSL 3.0 on). -/
structure CipherSuite where
  id : Nat
  ka : KeyAgreement
  cipher : BulkCipher
  hash : Hash
  suiteTLS12 : Bool
  deriving DecidableEq, Repr

/-- The cipher suites `crypto/tls` implements (Go 1.8.3, the version the
comment in `certs.go` refers to). -/
def cipherSuites : List CipherSuite :=
  [ ⟨TLS_ECDHE_RSA_WITH_CHACHA20_POLY1305, .ECDHE_RSA, .CHACHA20_POLY1305, .none, true⟩,
    ⟨TLS_ECDHE_ECDSA_WITH_CHACHA20_POLY1305, .ECDHE_ECDSA, .CHACHA20_POLY1305, .none, true⟩,
    ⟨TLS_ECDHE_RSA_WITH_AES_128_GCM_SHA256, .ECDHE_RSA, .AES_128_GCM, .SHA256, true⟩,
    ⟨TLS_ECDHE_ECDSA_WITH_AES_128_GCM_SHA256, .ECDHE_ECDSA, .AES_128_GCM, .SHA256, true⟩,
    ⟨TLS_ECDHE_RSA_WITH_AES_256_GCM_SHA384, .ECDHE_RSA, .AES_256_GCM, .SHA384, true⟩,
    ⟨TLS_ECDHE_ECDSA_WITH_AES_256_GCM_SHA384, .ECDHE_ECDSA, .AES_256_GCM, .SHA384, true⟩,
    ⟨TLS_ECDHE_RSA_WITH_AES_128_CBC_SHA256, .ECDHE_RSA, .AES_128_CBC, .SHA256, true⟩,
    ⟨TLS_ECDHE_RSA_WITH_AES_128_CBC_SHA, .ECDHE_RSA, .AES_128_CBC, .SHA, false⟩,
    ⟨TLS_ECDHE_ECDSA_WITH_AES_128_CBC_SHA256, .ECDHE_ECDSA, .AES_128_CBC, .SHA256, true⟩,
    ⟨TLS_ECDHE_ECDSA_WITH_AES_128_CBC_SHA, .ECDHE_ECDSA, .AES_128_CBC, .SHA, false⟩,
    ⟨TLS_ECDHE_RSA_WITH_AES_256_CBC_SHA, .ECDHE_RSA, .AES_256_CBC, .SHA, false⟩,
    ⟨TLS_ECDHE_ECDSA_WITH_AES_256_CBC_SHA, .ECDHE_ECDSA, .AES_256_CBC, .SHA, false⟩,
    ⟨TLS_RSA_WITH_AES_128_GCM_SHA256, .RSA, .AES_128_GCM, .SHA256, true⟩,
    ⟨TLS_RSA_WITH_AES_256_GCM_SHA384, .RSA, .AES_256_GCM, .SHA384, true⟩,
    ⟨TLS_RSA_WITH_AES_128_CBC_SHA256, .RSA, .AES_128_CBC, .SHA256, true⟩,
    ⟨TLS_RSA_WITH_AES_128_CBC_SHA, .RSA, .AES_128_CBC, .SHA, false⟩,
    ⟨TLS_RSA_WITH_AES_256_CBC_SHA, .RSA, .AES_256_CBC, .SHA, false⟩,
    ⟨TLS_ECDHE_RSA_WITH_3DES_EDE_CBC_SHA, .ECDHE_RSA, .TripleDES_EDE_CBC, .SHA, false⟩,
    ⟨TLS_RSA_WITH_3DES_EDE_CBC_SHA, .RSA, .TripleDES_EDE_CBC, .SHA, false⟩,
    ⟨TLS_RSA_WITH_RC4_128_SHA, .RSA, .RC4_128, .SHA, false⟩,
    ⟨TLS_ECDHE_RSA_WITH_RC4_128_SHA, .ECDHE_RSA, .RC4_128, .SHA, false⟩,
    ⟨TLS_ECDHE_ECDSA_WITH_RC4_128_SHA, .ECDHE_ECDSA, .RC4_128, .SHA, false⟩ ]

/-- Look a suite identifier up in the table. -/
def cipherSuiteByID (id : Nat) : Option CipherSuite :=
  cipherSuites.find? (fun s => s.id == id)

/-- The protocol versions of `crypto/tls`, lowest first. -/
def supportedVersions : List Nat :=
  [VersionSSL30, VersionTLS10, VersionTLS11, VersionTLS12]

/-- Whether the suite `id` can be negotiated in protocol version `vers`: the
suite is implemented, the version is one of the protocol versions, and a
suite flagged `suiteTLS12` needs TLS 1.2. -/
def suiteAvailableIn (id vers : Nat) : Bool :=
  match cipherSuiteByID id with
  | some s => supportedVersions.contains vers && (!s.suiteTLS12 || decide (VersionTLS12 ≤ vers))
  | none => false

/-- A 3DES-based suite: its bulk cipher is `3DES_EDE_CBC`. -/
def is3DES (id : Nat) : Bool :=
  match cipherSuiteByID id with
  | some s => s.cipher == .TripleDES_EDE_CBC
  | none => false

/-- A below-floor-version suite for the floor `floor`: some protocol version
below the floor can negotiate it. A suite flagged `suiteTLS12` is none for
the floor TLS 1.2, an unflagged suite is one. -/
def isBelowFloor (floor id : Nat) : Bool :=
  supportedVersions.any (fun v => decide (v < floor) && suiteAvailableIn id v)

/-- An authenticated-encryption suite: AES-GCM or ChaCha20-Poly1305. -/
def isAEAD (id : Nat) : Bool :=
  match cipherSuiteByID id with
  | some s => s.cipher == .AES_128_GCM || s.cipher == .AES_256_GCM || s.cipher == .CHACHA20_POLY1305
  | none => false

/-- A CBC-SHA suite: a CBC bulk cipher with the `SHA` (HMAC-SHA1) hash. -/
def isCBC_SHA (id : Nat) : Bool :=
  match cipherSuiteByID id with
  | some s =>
    (s.cipher == .AES_128_CBC || s.cipher == .AES_256_CBC || s.cipher == .TripleDES_EDE_CBC)
      && s.hash == .SHA
  | none => false

/-- An AES-based suite, in either mode. -/
def isAES (id : Nat) : Bool :=
  match cipherSuiteByID id with
  | some s =>
    s.cipher == .AES_128_CBC || s.cipher == .AES_256_CBC
      || s.cipher == .AES_128_GCM || s.cipher == .AES_256_GCM
  | none => false

/-- An AES-GCM suite. -/
def isAESGCM (id : Nat) : Bool :=
  match cipherSuiteByID id with
  | some s => s.cipher == .AES_128_GCM || s.cipher == .AES_256_GCM
  | none => false

/-- A ChaCha20-Poly1305 suite. -/
def isChaCha20 (id : Nat) : Bool :=
  match cipherSuiteByID id with
  | some s => s.cipher == .CHACHA20_POLY1305
  | none => false

/-- A forward-secret suite: the key exchange is ECDHE. -/
def isECDHE (id : Nat) : Bool :=
  match cipherSuiteByID id with
  | some s => s.ka == .ECDHE_RSA || s.ka == .ECDHE_ECDSA
  | none => false

/-- A static-RSA key-exchange suite (`TLS_RSA_WITH_*`). -/
def isStaticRSA (id : Nat) : Bool :=
  match cipherSuiteByID id with
  | some s => s.ka == .RSA
  | none => false

end tls

/-! ## The two configurations -/

/-- `tlsClientSkipVerify` of `certs.go`. -/
def tlsClientSkipVerify : tls.Config where
  InsecureSkipVerify := true
  PreferServerCipherSuites := true
  CipherSuites :=
    [ tls.TLS_ECDHE_RSA_WITH_AES_128_GCM_SHA256,
      tls.TLS_ECDHE_RSA_WITH_AES_256_GCM_SHA384,
      tls.TLS_ECDHE_ECDSA_WITH_AES_128_GCM_SHA256,
      tls.TLS_ECDHE_ECDSA_WITH_AES_256_GCM_SHA384,
      tls.TLS_ECDHE_RSA_WITH_CHACHA20_POLY1305,
      tls.TLS_ECDHE_ECDSA_WITH_CHACHA20_POLY1305,
      tls.TLS_ECDHE_RSA_WITH_AES_128_CBC_SHA,
      tls.TLS_ECDHE_ECDSA_WITH_AES_128_CBC_SHA,
      tls.TLS_ECDHE_RSA_WITH_AES_256_CBC_SHA,
      tls.TLS_ECDHE_ECDSA_WITH_AES_256_CBC_SHA,
      tls.TLS_RSA_WITH_AES_128_GCM_SHA256,
      tls.TLS_RSA_WITH_AES_256_GCM_SHA384,
      tls.TLS_RSA_WITH_AES_128_CBC_SHA,
      tls.TLS_RSA_WITH_AES_256_CBC_SHA ]
  MinVersion := tls.VersionTLS12

/-- `defaultTLSConfig` of `certs.go`. -/
def defaultTLSConfig : tls.Config where
  InsecureSkipVerify := true
  PreferServerCipherSuites := true
  CipherSuites :=
    [ tls.TLS_ECDHE_RSA_WITH_AES_128_GCM_SHA256,
      tls.TLS_ECDHE_RSA_WITH_AES_256_GCM_SHA384,
      tls.TLS_ECDHE_ECDSA_WITH_AES_128_GCM_SHA256,
      tls.TLS_ECDHE_ECDSA_WITH_AES_256_GCM_SHA384,
      tls.TLS_ECDHE_RSA_WITH_CHACHA20_POLY1305,
      tls.TLS_ECDHE_ECDSA_WITH_CHACHA20_POLY1305,
      tls.TLS_ECDHE_RSA_WITH_AES_128_CBC_SHA,
      tls.TLS_ECDHE_ECDSA_WITH_AES_128_CBC_SHA,
      tls.TLS_ECDHE_RSA_WITH_AES_256_CBC_SHA,
      tls.TLS_ECDHE_ECDSA_WITH_AES_256_CBC_SHA,
      tls.TLS_RSA_WITH_AES_128_GCM_SHA256,
      tls.TLS_RSA_WITH_AES_256_GCM_SHA384,
      tls.TLS_RSA_WITH_AES_128_CBC_SHA,
      tls.TLS_RSA_WITH_AES_256_CBC_SHA ]
  MinVersion := tls.VersionTLS12

/-- The two profiles, upstream client first. -/
def profiles : List tls.Config := [tlsClientSkipVerify, defaultTLSConfig]

/-- Priority order in a suite list: every entry satisfying `p` stands at a
smaller position than every entry satisfying `q`. -/
def allBefore (p q : Nat → Bool) (l : List Nat) : Prop :=
  ∀ (i j : Nat) (a c : Nat), l[i]? = some a → l[j]? = some c → p a = true → q c = true → i < j

/-! ## Start-up check of the built-in certificate authority -/

/-- A Go `error`, by the text of its `Error()` method. -/
structure error where
  Error : String
  deriving DecidableEq, Repr

/-- How `init` can abort: `panic(msg)` with a string, or the run-time panic
of indexing an empty slice. -/
inductive Panic where
  | msg (s : String)
  | indexOutOfRange
  deriving DecidableEq, Repr

/-- `init` of `certs.go`. `GoproxyCa` and `goproxyCaErr` are the two results
of `tls.X509KeyPair(CA_CERT, CA_KEY)`, `ParseCertificate` is
`x509.ParseCertificate`. The result is the panic that aborts start-up, or
the value of `GoproxyCa` when `init` returns. -/
def init {Key X509 : Type} (GoproxyCa : tls.Certificate Key X509)
    (goproxyCaErr : Option error)
    (ParseCertificate : List Nat → Except error X509) :
    Except Panic (tls.Certificate Key X509) :=
  match goproxyCaErr with
  | some e => .error (.msg ("Error parsing builtin CA " ++ e.Error))
  | none =>
    match GoproxyCa.Certificate with
    | [] => .error .indexOutOfRange
    | der :: _ =>
      match ParseCertificate der with
      | .error err => .error (.msg ("Error parsing builtin CA " ++ err.Error))
      | .ok leaf => .ok { GoproxyCa with Leaf := some leaf }

/-- The outcome of the `ParseLeaf` step on a chain: `x509.ParseCertificate`
applied to the first entry (`none` when there is no first entry). -/
def ParseLeaf {X509 : Type} (ParseCertificate : List Nat → Except error X509)
    (chain : List (List Nat)) : Option (Except error X509) :=
  chain.head?.map ParseCertificate

/-- Whether a result is an error. -/
def isError {ε α : Type} : Except ε α → Bool
  | .error _ => true
  | .ok _ => false

/-- A sample parser standing for `x509.ParseCertificate`: it accepts the
two-byte inputs starting with 48 and answers with the second byte. -/
def sampleParse : List Nat → Except error Nat
  | [48, n] => .ok n
  | _ => .error ⟨"asn1: syntax error"⟩

/-- A sample Load result: a chain of two entries and a key, no leaf yet. -/
def sampleCa : tls.Certificate Nat Nat :=
  ⟨[[48, 1], [48, 2]], 7, [], [], none⟩

/-- A sample Load result whose first chain entry the sample parser rejects. -/
def sampleBadCa : tls.Certificate Nat Nat :=
  ⟨[[0], [48, 2]], 7, [], [], none⟩

/-! ## Theorems -/

/-- A position that holds an entry lies within the list. -/
theorem lt_of_getElem?_eq_some {l : List Nat} {i a : Nat} (h : l[i]? = some a) :
    i < l.length := by
  by_contra hlt
  rw [List.getElem?_eq_none (Nat.le_of_not_lt hlt)] at h
  exact Option.noConfusion h

/-- A priority order on a list is decided by running over its positions. -/
theorem allBefore_iff (p q : Nat → Bool) (l : List Nat) :
    allBefore p q l ↔
      ∀ i < l.length, ∀ j < l.length,
        (l.getD i 0 |> p) = true → (l.getD j 0 |> q) = true → i < j := by
  constructor
  · intro h i hi j hj hp hq
    refine h i j (l.getD i 0) (l.getD j 0) ?_ ?_ hp hq
    · simp [List.getD, List.getElem?_eq_getElem hi]
    · simp [List.getD, List.getElem?_eq_getElem hj]
  · intro h i j a c ha hc hp hq
    have hi := lt_of_getElem?_eq_some ha
    have hj := lt_of_getElem?_eq_some hc
    refine h i hi j hj ?_ ?_
    · simpa [List.getD, ha] using hp
    · simpa [List.getD, hc] using hq

instance (p q : Nat → Bool) (l : List Nat) : Decidable (allBefore p q l) :=
  decidable_of_iff _ (allBefore_iff p q l).symm

/-- Appending to the same text is injective. -/
theorem string_append_left_cancel (p a b : String) : p ++ a = p ++ b ↔ a = b := by
  constructor
  · intro h
    have hd := congrArg String.data h
    simp only [String.data_append] at hd
    exact String.ext (List.append_cancel_left hd)
  · intro h
    rw [h]

/-- The priority list as the specification writes it, highest priority
first: key exchange, bulk cipher and hash of each entry. -/
def specCipherSuitePriority : List (tls.KeyAgreement × tls.BulkCipher × tls.Hash) :=
  [ (.ECDHE_RSA, .AES_128_GCM, .SHA256),
    (.ECDHE_RSA, .AES_256_GCM, .SHA384),
    (.ECDHE_ECDSA, .AES_128_GCM, .SHA256),
    (.ECDHE_ECDSA, .AES_256_GCM, .SHA384),
    (.ECDHE_RSA, .CHACHA20_POLY1305, .none),
    (.ECDHE_ECDSA, .CHACHA20_POLY1305, .none),
    (.ECDHE_RSA, .AES_128_CBC, .SHA),
    (.ECDHE_ECDSA, .AES_128_CBC, .SHA),
    (.ECDHE_RSA, .AES_256_CBC, .SHA),
    (.ECDHE_ECDSA, .AES_256_CBC, .SHA),
    (.RSA, .AES_128_GCM, .SHA256),
    (.RSA, .AES_256_GCM, .SHA384),
    (.RSA, .AES_128_CBC, .SHA),
    (.RSA, .AES_256_CBC, .SHA) ]

/-- What a list of suite identifiers names: the key exchange, bulk cipher and
hash of each identifier, `none` for an identifier outside the table. -/
def decodeSuites (l : List Nat) : List (Option (tls.KeyAgreement × tls.BulkCipher × tls.Hash)) :=
  l.map (fun id => (tls.cipherSuiteByID id).map (fun s => (s.ka, s.cipher, s.hash)))

/-- C1: the cipher suite lists of `tlsClientSkipVerify` and of
`defaultTLSConfig` are each exactly the sequence of fourteen suites of the
specification, in its order (as identifiers, and as the key exchange, cipher
and hash the identifiers name), so the two lists agree at every position. -/
theorem cipherSuites_exact :
    tlsClientSkipVerify.CipherSuites =
        [ tls.TLS_ECDHE_RSA_WITH_AES_128_GCM_SHA256, tls.TLS_ECDHE_RSA_WITH_AES_256_GCM_SHA384,
          tls.TLS_ECDHE_ECDSA_WITH_AES_128_GCM_SHA256, tls.TLS_ECDHE_ECDSA_WITH_AES_256_GCM_SHA384,
          tls.TLS_ECDHE_RSA_WITH_CHACHA20_POLY1305, tls.TLS_ECDHE_ECDSA_WITH_CHACHA20_POLY1305,
          tls.TLS_ECDHE_RSA_WITH_AES_128_CBC_SHA, tls.TLS_ECDHE_ECDSA_WITH_AES_128_CBC_SHA,
          tls.TLS_ECDHE_RSA_WITH_AES_256_CBC_SHA, tls.TLS_ECDHE_ECDSA_WITH_AES_256_CBC_SHA,
          tls.TLS_RSA_WITH_AES_128_GCM_SHA256, tls.TLS_RSA_WITH_AES_256_GCM_SHA384,
          tls.TLS_RSA_WITH_AES_128_CBC_SHA, tls.TLS_RSA_WITH_AES_256_CBC_SHA ]
      ∧ defaultTLSConfig.CipherSuites =
        [ tls.TLS_ECDHE_RSA_WITH_AES_128_GCM_SHA256, tls.TLS_ECDHE_RSA_WITH_AES_256_GCM_SHA384,
          tls.TLS_ECDHE_ECDSA_WITH_AES_128_GCM_SHA256, tls.TLS_ECDHE_ECDSA_WITH_AES_256_GCM_SHA384,
          tls.TLS_ECDHE_RSA_WITH_CHACHA20_POLY1305, tls.TLS_ECDHE_ECDSA_WITH_CHACHA20_POLY1305,
          tls.TLS_ECDHE_RSA_WITH_AES_128_CBC_SHA, tls.TLS_ECDHE_ECDSA_WITH_AES_128_CBC_SHA,
          tls.TLS_ECDHE_RSA_WITH_AES_256_CBC_SHA, tls.TLS_ECDHE_ECDSA_WITH_AES_256_CBC_SHA,
          tls.TLS_RSA_WITH_AES_128_GCM_SHA256, tls.TLS_RSA_WITH_AES_256_GCM_SHA384,
          tls.TLS_RSA_WITH_AES_128_CBC_SHA, tls.TLS_RSA_WITH_AES_256_CBC_SHA ]
      ∧ tlsClientSkipVerify.CipherSuites =
        [0xc02f, 0xc030, 0xc02b, 0xc02c, 0xcca8, 0xcca9, 0xc013, 0xc009, 0xc014, 0xc00a,
          0x009c, 0x009d, 0x002f, 0x0035]
      ∧ tlsClientSkipVerify.CipherSuites.length = 14
      ∧ defaultTLSConfig.CipherSuites.length = 14
      ∧ decodeSuites tlsClientSkipVerify.CipherSuites = specCipherSuitePriority.map some
      ∧ decodeSuites defaultTLSConfig.CipherSuites = specCipherSuitePriority.map some
      ∧ tlsClientSkipVerify.CipherSuites = defaultTLSConfig.CipherSuites
      ∧ ∀ i : Nat, tlsClientSkipVerify.CipherSuites[i]? = defaultTLSConfig.CipherSuites[i]? := by
  refine ⟨rfl, rfl, by decide, rfl, rfl, by decide, by decide, rfl, fun _ => rfl⟩

/-- C2 as stated fails: `TLS_ECDHE_RSA_WITH_AES_128_CBC_SHA`, the entry at
position 6 of both lists, can be negotiated in TLS 1.1, a version below the
minimum version TLS 1.2 of the profiles, and so can five more entries. -/
theorem belowFloor_entry_present :
    tlsClientSkipVerify.CipherSuites[6]? = some tls.TLS_ECDHE_RSA_WITH_AES_128_CBC_SHA
      ∧ defaultTLSConfig.CipherSuites[6]? = some tls.TLS_ECDHE_RSA_WITH_AES_128_CBC_SHA
      ∧ tls.VersionTLS11 < tlsClientSkipVerify.MinVersion
      ∧ tls.VersionTLS11 < defaultTLSConfig.MinVersion
      ∧ tls.suiteAvailableIn tls.TLS_ECDHE_RSA_WITH_AES_128_CBC_SHA tls.VersionTLS11 = true
      ∧ tls.isBelowFloor tlsClientSkipVerify.MinVersion
          tls.TLS_ECDHE_RSA_WITH_AES_128_CBC_SHA = true
      ∧ tls.isBelowFloor defaultTLSConfig.MinVersion
          tls.TLS_ECDHE_RSA_WITH_AES_128_CBC_SHA = true
      ∧ (tlsClientSkipVerify.CipherSuites.filter
          (tls.isBelowFloor tlsClientSkipVerify.MinVersion)).length = 6
      ∧ (defaultTLSConfig.CipherSuites.filter
          (tls.isBelowFloor defaultTLSConfig.MinVersion)).length = 6
      ∧ ¬ (∀ cfg ∈ profiles, ∀ id ∈ cfg.CipherSuites,
            tls.is3DES id = false ∧ tls.isBelowFloor cfg.MinVersion id = false) := by
  refine ⟨rfl, rfl, by decide, by decide, by decide, by decide, by decide, by decide,
    by decide, ?_⟩
  intro h
  have h6 := (h tlsClientSkipVerify (by decide)
    tls.TLS_ECDHE_RSA_WITH_AES_128_CBC_SHA (by decide)).2
  exact absurd h6 (by decide)

/-- C2, amended: in both profiles no entry of the cipher suite list is a
3DES-based suite (neither `TLS_RSA_WITH_3DES_EDE_CBC_SHA` nor
`TLS_ECDHE_RSA_WITH_3DES_EDE_CBC_SHA`, nor any suite whose cipher is 3DES),
so the lists contain zero 3DES entries; every entry can be negotiated at the
minimum version of the profile; and an entry can be negotiated below that
version exactly when it is one of the CBC-SHA entries. -/
theorem no_3DES_and_floor (cfg : tls.Config) (hcfg : cfg ∈ profiles)
    (id : Nat) (hid : id ∈ cfg.CipherSuites) :
    id ≠ tls.TLS_RSA_WITH_3DES_EDE_CBC_SHA
      ∧ id ≠ tls.TLS_ECDHE_RSA_WITH_3DES_EDE_CBC_SHA
      ∧ tls.is3DES id = false
      ∧ (cfg.CipherSuites.filter tls.is3DES).length = 0
      ∧ tls.suiteAvailableIn id cfg.MinVersion = true
      ∧ (tls.isBelowFloor cfg.MinVersion id = true ↔ tls.isCBC_SHA id = true) := by
  have key : ∀ c ∈ profiles, ∀ s ∈ c.CipherSuites,
      s ≠ tls.TLS_RSA_WITH_3DES_EDE_CBC_SHA
        ∧ s ≠ tls.TLS_ECDHE_RSA_WITH_3DES_EDE_CBC_SHA
        ∧ tls.is3DES s = false
        ∧ (c.CipherSuites.filter tls.is3DES).length = 0
        ∧ tls.suiteAvailableIn s c.MinVersion = true
        ∧ (tls.isBelowFloor c.MinVersion s = true ↔ tls.isCBC_SHA s = true) := by
    decide
  exact key cfg hcfg id hid

/-- C2 amended, at two entries of the upstream profile: the first, an
AES-GCM suite, is no 3DES suite and cannot be negotiated below the minimum
version; the seventh, a CBC-SHA suite, is no 3DES suite either. -/
theorem no_3DES_and_floor_witness :
    tlsClientSkipVerify ∈ profiles
      ∧ tls.TLS_ECDHE_RSA_WITH_AES_128_GCM_SHA256 ∈ tlsClientSkipVerify.CipherSuites
      ∧ tls.is3DES tls.TLS_ECDHE_RSA_WITH_AES_128_GCM_SHA256 = false
      ∧ (tls.isBelowFloor tlsClientSkipVerify.MinVersion
            tls.TLS_ECDHE_RSA_WITH_AES_128_GCM_SHA256 = true ↔
          tls.isCBC_SHA tls.TLS_ECDHE_RSA_WITH_AES_128_GCM_SHA256 = true)
      ∧ tls.is3DES tls.TLS_ECDHE_RSA_WITH_AES_128_CBC_SHA = false :=
  ⟨by decide, by decide,
    (no_3DES_and_floor tlsClientSkipVerify (by decide)
      tls.TLS_ECDHE_RSA_WITH_AES_128_GCM_SHA256 (by decide)).2.2.1,
    (no_3DES_and_floor tlsClientSkipVerify (by decide)
      tls.TLS_ECDHE_RSA_WITH_AES_128_GCM_SHA256 (by decide)).2.2.2.2.2,
    (no_3DES_and_floor tlsClientSkipVerify (by decide)
      tls.TLS_ECDHE_RSA_WITH_AES_128_CBC_SHA (by decide)).2.2.1⟩

/-- C6: `tlsClientSkipVerify` skips peer verification and its minimum
version is TLS 1.2; `defaultTLSConfig` has the same verification mode and
the same minimum version. -/
theorem skipVerify_and_floor :
    tlsClientSkipVerify.InsecureSkipVerify = true
      ∧ tlsClientSkipVerify.MinVersion = tls.VersionTLS12
      ∧ tlsClientSkipVerify.MinVersion = 0x0303
      ∧ defaultTLSConfig.InsecureSkipVerify = tlsClientSkipVerify.InsecureSkipVerify
      ∧ defaultTLSConfig.MinVersion = tlsClientSkipVerify.MinVersion :=
  ⟨rfl, rfl, rfl, rfl, rfl⟩

/-- C7: `PreferServerCipherSuites` is true in `tlsClientSkipVerify` and in
`defaultTLSConfig`. -/
theorem preferServerCipherSuites_both :
    tlsClientSkipVerify.PreferServerCipherSuites = true
      ∧ defaultTLSConfig.PreferServerCipherSuites = true :=
  ⟨rfl, rfl⟩

/-- C8 as stated fails: in both profiles `TLS_RSA_WITH_AES_128_GCM_SHA256`,
an authenticated-encryption suite, stands at position 10, after the CBC-SHA
suite `TLS_ECDHE_RSA_WITH_AES_128_CBC_SHA` at position 6. -/
theorem aead_before_cbc_fails :
    tlsClientSkipVerify.CipherSuites[10]? = some tls.TLS_RSA_WITH_AES_128_GCM_SHA256
      ∧ tlsClientSkipVerify.CipherSuites[6]? = some tls.TLS_ECDHE_RSA_WITH_AES_128_CBC_SHA
      ∧ defaultTLSConfig.CipherSuites[10]? = some tls.TLS_RSA_WITH_AES_128_GCM_SHA256
      ∧ defaultTLSConfig.CipherSuites[6]? = some tls.TLS_ECDHE_RSA_WITH_AES_128_CBC_SHA
      ∧ tls.isAEAD tls.TLS_RSA_WITH_AES_128_GCM_SHA256 = true
      ∧ tls.isCBC_SHA tls.TLS_ECDHE_RSA_WITH_AES_128_CBC_SHA = true
      ∧ ¬ (10 < 6)
      ∧ ¬ allBefore tls.isAEAD tls.isCBC_SHA tlsClientSkipVerify.CipherSuites
      ∧ ¬ allBefore tls.isAEAD tls.isCBC_SHA defaultTLSConfig.CipherSuites := by
  refine ⟨rfl, rfl, rfl, rfl, by decide, by decide, by decide, ?_, ?_⟩
  · intro h
    exact absurd (h 10 6 _ _ rfl rfl (by decide) (by decide)) (by decide)
  · intro h
    exact absurd (h 10 6 _ _ rfl rfl (by decide) (by decide)) (by decide)

/-- C8, amended: in the cipher suite list of each profile every
authenticated-encryption entry stands before every CBC-SHA entry, except
that the static-RSA authenticated-encryption entries stand after the ECDHE
CBC-SHA entries: an ECDHE authenticated-encryption entry stands before every
CBC-SHA entry, every authenticated-encryption entry stands before every
static-RSA CBC-SHA entry, and every ECDHE CBC-SHA entry stands before every
static-RSA authenticated-encryption entry. -/
theorem aead_before_cbc_except_staticRSA :
    allBefore (fun a => tls.isAEAD a && tls.isECDHE a) tls.isCBC_SHA
        tlsClientSkipVerify.CipherSuites
      ∧ allBefore tls.isAEAD (fun c => tls.isCBC_SHA c && tls.isStaticRSA c)
        tlsClientSkipVerify.CipherSuites
      ∧ allBefore (fun c => tls.isCBC_SHA c && tls.isECDHE c)
        (fun a => tls.isAEAD a && tls.isStaticRSA a) tlsClientSkipVerify.CipherSuites
      ∧ allBefore (fun a => tls.isAEAD a && tls.isECDHE a) tls.isCBC_SHA
        defaultTLSConfig.CipherSuites
      ∧ allBefore tls.isAEAD (fun c => tls.isCBC_SHA c && tls.isStaticRSA c)
        defaultTLSConfig.CipherSuites
      ∧ allBefore (fun c => tls.isCBC_SHA c && tls.isECDHE c)
        (fun a => tls.isAEAD a && tls.isStaticRSA a) defaultTLSConfig.CipherSuites
      ∧ tlsClientSkipVerify.CipherSuites.all
          (fun id => tls.isECDHE id || tls.isStaticRSA id) = true
      ∧ defaultTLSConfig.CipherSuites.all
          (fun id => tls.isECDHE id || tls.isStaticRSA id) = true := by
  refine ⟨?_, ?_, ?_, ?_, ?_, ?_, ?_, ?_⟩ <;> decide

/-- C9 as stated fails: in both profiles the AES-based suite
`TLS_ECDHE_RSA_WITH_AES_128_CBC_SHA` stands at position 6, after the
ChaCha20-Poly1305 suite `TLS_ECDHE_RSA_WITH_CHACHA20_POLY1305` at position 4. -/
theorem aes_before_chacha_fails :
    tlsClientSkipVerify.CipherSuites[6]? = some tls.TLS_ECDHE_RSA_WITH_AES_128_CBC_SHA
      ∧ tlsClientSkipVerify.CipherSuites[4]? = some tls.TLS_ECDHE_RSA_WITH_CHACHA20_POLY1305
      ∧ defaultTLSConfig.CipherSuites[6]? = some tls.TLS_ECDHE_RSA_WITH_AES_128_CBC_SHA
      ∧ defaultTLSConfig.CipherSuites[4]? = some tls.TLS_ECDHE_RSA_WITH_CHACHA20_POLY1305
      ∧ tls.isAES tls.TLS_ECDHE_RSA_WITH_AES_128_CBC_SHA = true
      ∧ tls.isChaCha20 tls.TLS_ECDHE_RSA_WITH_CHACHA20_POLY1305 = true
      ∧ ¬ (6 < 4)
      ∧ ¬ allBefore tls.isAES tls.isChaCha20 tlsClientSkipVerify.CipherSuites
      ∧ ¬ allBefore tls.isAES tls.isChaCha20 defaultTLSConfig.CipherSuites := by
  refine ⟨rfl, rfl, rfl, rfl, by decide, by decide, by decide, ?_, ?_⟩
  · intro h
    exact absurd (h 6 4 _ _ rfl rfl (by decide) (by decide)) (by decide)
  · intro h
    exact absurd (h 6 4 _ _ rfl rfl (by decide) (by decide)) (by decide)

/-- C9, amended: in the cipher suite list of each profile every ECDHE
AES-GCM suite stands before every ChaCha20-Poly1305 suite. -/
theorem ecdhe_aesgcm_before_chacha :
    allBefore (fun a => tls.isAESGCM a && tls.isECDHE a) tls.isChaCha20
        tlsClientSkipVerify.CipherSuites
      ∧ allBefore (fun a => tls.isAESGCM a && tls.isECDHE a) tls.isChaCha20
        defaultTLSConfig.CipherSuites := by
  refine ⟨?_, ?_⟩ <;> decide

/-- C10: in the cipher suite list of each profile every ECDHE suite stands
before every static-RSA key-exchange suite. -/
theorem ecdhe_before_staticRSA :
    allBefore tls.isECDHE tls.isStaticRSA tlsClientSkipVerify.CipherSuites
      ∧ allBefore tls.isECDHE tls.isStaticRSA defaultTLSConfig.CipherSuites
      ∧ (tlsClientSkipVerify.CipherSuites.filter tls.isECDHE).length = 10
      ∧ (tlsClientSkipVerify.CipherSuites.filter tls.isStaticRSA).length = 4
      ∧ (defaultTLSConfig.CipherSuites.filter tls.isECDHE).length = 10
      ∧ (defaultTLSConfig.CipherSuites.filter tls.isStaticRSA).length = 4 := by
  refine ⟨?_, ?_, ?_, ?_, ?_, ?_⟩ <;> decide

/-- C3: `init` is fatal on failure. Given that a successful Load yields a
chain with at least one entry: `init` panics if and only if Load returned an
error or ParseLeaf returned an error; it returns normally exactly when both
succeeded; after a failed Load the outcome is the Load panic whatever
`x509.ParseCertificate` would answer, so ParseLeaf plays no part before Load
has succeeded; and reading the first chain entry never fails. -/
theorem init_fatal_on_failure {Key X509 : Type} (GoproxyCa : tls.Certificate Key X509)
    (goproxyCaErr : Option error) (ParseCertificate : List Nat → Except error X509)
    (hload : goproxyCaErr = none → GoproxyCa.Certificate ≠ []) :
    (isError (init GoproxyCa goproxyCaErr ParseCertificate) = true ↔
        (goproxyCaErr ≠ none ∨
          ∃ e, ParseLeaf ParseCertificate GoproxyCa.Certificate = some (.error e)))
      ∧ ((∃ ca, init GoproxyCa goproxyCaErr ParseCertificate = .ok ca) ↔
        (goproxyCaErr = none ∧
          ∃ leaf, ParseLeaf ParseCertificate GoproxyCa.Certificate = some (.ok leaf)))
      ∧ (∀ e, goproxyCaErr = some e →
          ∀ P : List Nat → Except error X509,
            init GoproxyCa goproxyCaErr P
              = .error (.msg ("Error parsing builtin CA " ++ e.Error)))
      ∧ init GoproxyCa goproxyCaErr ParseCertificate ≠ .error .indexOutOfRange := by
  cases goproxyCaErr with
  | some e =>
    refine ⟨?_, ?_, ?_, ?_⟩
    · simp [init, isError]
    · simp [init]
    · intro e1 he P
      cases he
      rfl
    · simp [init]
  | none =>
    have hne := hload rfl
    cases hc : GoproxyCa.Certificate with
    | nil => exact absurd hc hne
    | cons der rest =>
      cases hp : ParseCertificate der with
      | error err =>
        refine ⟨?_, ?_, ?_, ?_⟩
        · simp [init, isError, ParseLeaf, hc, hp]
        · simp [init, ParseLeaf, hc, hp]
        · intro e he
          cases he
        · simp [init, hc, hp]
      | ok leaf =>
        refine ⟨?_, ?_, ?_, ?_⟩
        · simp [init, isError, ParseLeaf, hc, hp]
        · simp [init, ParseLeaf, hc, hp]
        · intro e he
          cases he
        · simp [init, hc, hp]

/-- C3, at a run: Load succeeded with a chain of two entries, the first of
which `x509.ParseCertificate` accepts; `init` returns normally. -/
theorem init_fatal_on_failure_witness :
    ((none : Option error) = none → sampleCa.Certificate ≠ [])
      ∧ ((∃ ca, init sampleCa none sampleParse = .ok ca) ↔
        ((none : Option error) = none ∧
          ∃ leaf, ParseLeaf sampleParse sampleCa.Certificate = some (.ok leaf)))
      ∧ init sampleCa none sampleParse ≠ .error .indexOutOfRange :=
  ⟨fun _ => by decide,
   (init_fatal_on_failure sampleCa none sampleParse (fun _ => by decide)).2.1,
   (init_fatal_on_failure sampleCa none sampleParse (fun _ => by decide)).2.2.2⟩

/-- C4: whenever `init` returns without panicking, the leaf of `GoproxyCa` is
set, and it is the result of parsing the first entry (index 0) of the chain;
the chain, the private key and the other fields are the ones Load produced. -/
theorem init_ok_leaf {Key X509 : Type} (GoproxyCa : tls.Certificate Key X509)
    (goproxyCaErr : Option error) (ParseCertificate : List Nat → Except error X509)
    (ca : tls.Certificate Key X509)
    (h : init GoproxyCa goproxyCaErr ParseCertificate = .ok ca) :
    ca.Leaf ≠ none
      ∧ (∃ der leaf, GoproxyCa.Certificate[0]? = some der
          ∧ ParseCertificate der = .ok leaf ∧ ca.Leaf = some leaf)
      ∧ ParseLeaf ParseCertificate ca.Certificate = ca.Leaf.map Except.ok
      ∧ goproxyCaErr = none
      ∧ ca.Certificate = GoproxyCa.Certificate
      ∧ ca.PrivateKey = GoproxyCa.PrivateKey
      ∧ ca.OCSPStaple = GoproxyCa.OCSPStaple
      ∧ ca.SignedCertificateTimestamps = GoproxyCa.SignedCertificateTimestamps := by
  cases goproxyCaErr with
  | some e => simp [init] at h
  | none =>
    cases hc : GoproxyCa.Certificate with
    | nil => simp [init, hc] at h
    | cons der rest =>
      cases hp : ParseCertificate der with
      | error err => simp [init, hc, hp] at h
      | ok leaf =>
        simp only [init, hc, hp, Except.ok.injEq] at h
        subst h
        simp [ParseLeaf, hc, hp]

/-- C4, at a run: with a chain of two entries that parse to 1 and to 2, the
leaf `init` sets is 1, the parse of the entry at index 0. -/
theorem init_ok_leaf_witness :
    init sampleCa none sampleParse = .ok ⟨[[48, 1], [48, 2]], 7, [], [], some 1⟩
      ∧ (⟨[[48, 1], [48, 2]], 7, [], [], some 1⟩ : tls.Certificate Nat Nat).Leaf ≠ none
      ∧ (⟨[[48, 1], [48, 2]], 7, [], [], some 1⟩ : tls.Certificate Nat Nat).PrivateKey
          = sampleCa.PrivateKey :=
  ⟨rfl,
   (init_ok_leaf sampleCa none sampleParse ⟨[[48, 1], [48, 2]], 7, [], [], some 1⟩
      rfl).1,
   (init_ok_leaf sampleCa none sampleParse ⟨[[48, 1], [48, 2]], 7, [], [], some 1⟩
      rfl).2.2.2.2.2.1⟩

/-- C5 as stated fails: a Load failure and a ParseLeaf failure whose errors
carry the same text make `init` report the same message. -/
theorem init_same_report :
    init sampleBadCa (some ⟨"asn1: syntax error"⟩) sampleParse
        = .error (.msg "Error parsing builtin CA asn1: syntax error")
      ∧ init sampleBadCa none sampleParse
        = .error (.msg "Error parsing builtin CA asn1: syntax error")
      ∧ ParseLeaf sampleParse sampleBadCa.Certificate
        = some (.error ⟨"asn1: syntax error"⟩)
      ∧ ¬ (∀ e1 e2 : error,
            init sampleBadCa (some e1) sampleParse
              ≠ init sampleBadCa none (fun _ => (.error e2 : Except error Nat))) := by
  refine ⟨rfl, rfl, rfl, ?_⟩
  intro h
  exact h ⟨"asn1: syntax error"⟩ ⟨"asn1: syntax error"⟩ rfl

/-- C5, amended: `init` reports a failed Load and a failed ParseLeaf with
the same fixed text followed by the text of the error of the failing step;
the two reports differ exactly when the two error texts differ. -/
theorem init_report_differs_iff {Key X509 : Type} (ca1 ca2 : tls.Certificate Key X509)
    (P1 P2 : List Nat → Except error X509) (e1 e2 : error)
    (h2 : ParseLeaf P2 ca2.Certificate = some (.error e2)) :
    init ca1 (some e1) P1 = .error (.msg ("Error parsing builtin CA " ++ e1.Error))
      ∧ init ca2 none P2 = .error (.msg ("Error parsing builtin CA " ++ e2.Error))
      ∧ (init ca1 (some e1) P1 ≠ init ca2 none P2 ↔ e1.Error ≠ e2.Error) := by
  have hA : init ca1 (some e1) P1
      = .error (.msg ("Error parsing builtin CA " ++ e1.Error)) := rfl
  have hB : init ca2 none P2
      = .error (.msg ("Error parsing builtin CA " ++ e2.Error)) := by
    cases hc : ca2.Certificate with
    | nil => simp [ParseLeaf, hc] at h2
    | cons der rest =>
      simp only [ParseLeaf, hc, List.head?_cons, Option.map_some', Option.some.injEq] at h2
      simp [init, hc, h2]
  refine ⟨hA, hB, ?_⟩
  rw [hA, hB]
  simp [string_append_left_cancel]

/-- C5 amended, at a run: errors with different texts give different reports. -/
theorem init_report_differs_iff_witness :
    ParseLeaf sampleParse sampleBadCa.Certificate = some (.error ⟨"asn1: syntax error"⟩)
      ∧ (init sampleCa (some ⟨"tls: private key does not match public key"⟩) sampleParse
            ≠ init sampleBadCa none sampleParse ↔
          (⟨"tls: private key does not match public key"⟩ : error).Error
            ≠ (⟨"asn1: syntax error"⟩ : error).Error) :=
  ⟨rfl,
   (init_report_differs_iff sampleCa sampleBadCa sampleParse sampleParse
      ⟨"tls: private key does not match public key"⟩ ⟨"asn1: syntax error"⟩
      rfl).2.2⟩
